import Mathlib

/-!
Shallow embedding of the DallasEPROM 1-Wire EPROM/EEPROM library
(DallasEPROM.h / DallasEPROM.cpp) and proofs about its page-oriented
protocol engine.

Modelling conventions:
* Machine bytes are plain natural numbers; conversions that truncate in C
  are made explicit with mod 256 and mod 2^32.
* The external OneWire bus collaborator is modelled through an explicit
  environment: the presence bit returned by reset, the list of device
  ROM codes the bus search enumerates, and the stream of bytes that
  successive read calls return.  Each operation returns its status code
  together with the trace of bus events it produced.
* The int status codes of the library are modelled as Int; the bool
  return type of isPageLocked is modelled as the C++ int-to-bool
  conversion applied to the value of the returned expression.
-/

/-- OneWire command byte READSTATUS (DallasEPROM.h line 40). -/
def READSTATUS : Nat := 0xAA

/-- OneWire command byte VERIFYRESUME (DallasEPROM.h line 41). -/
def VERIFYRESUME : Nat := 0xA5

/-- OneWire command byte WRITESTATUS (DallasEPROM.h line 42). -/
def WRITESTATUS : Nat := 0x55

/-- OneWire command byte READMEMORY (DallasEPROM.h line 43). -/
def READMEMORY : Nat := 0xF0

/-- OneWire command byte WRITEMEMORY (DallasEPROM.h line 45). -/
def WRITEMEMORY : Nat := 0x0F

/-- Status code CRC_MISMATCH (DallasEPROM.h line 51). -/
def CRC_MISMATCH : Int := -1

/-- Status code INVALID_PAGE (DallasEPROM.h line 52). -/
def INVALID_PAGE : Int := -2

/-- Status code PAGE_LOCKED (DallasEPROM.h line 53). -/
def PAGE_LOCKED : Int := -3

/-- Status code BAD_INTEGRITY (DallasEPROM.h line 54). -/
def BAD_INTEGRITY : Int := -4

/-- Status code COPY_FAILURE (DallasEPROM.h line 55). -/
def COPY_FAILURE : Int := -5

/-- Status code UNSUPPORTED_DEVICE (DallasEPROM.h line 56). -/
def UNSUPPORTED_DEVICE : Int := -64

/-- Status code DEVICE_DISCONNECTED (DallasEPROM.h line 57). -/
def DEVICE_DISCONNECTED : Int := -127

/-- Conversion of a C int value to uint8_t: reduction mod 256 (Int.emod
yields a nonnegative representative). -/
def u8 (i : Int) : Nat := (i % 256).toNat

/-- Conversion of a C int value to unsigned int (32 bits). -/
def u32 (i : Int) : Nat := (i % 4294967296).toNat

/-- One step of the OneWire CRC8 inner loop (polynomial 0x8C, reflected):
mix = (crc XOR inbyte) AND 1; crc = crc >> 1, XOR 0x8C when mix is set;
inbyte = inbyte >> 1. -/
def crc8Step (p : Nat × Nat) : Nat × Nat :=
  let mix := (p.1 ^^^ p.2) % 2
  let c := p.1 / 2
  ((if mix = 1 then c ^^^ 0x8C else c), p.2 / 2)

/-- Folding one input byte into the CRC8 accumulator: eight iterations of
the inner loop. -/
def crc8Byte (crc b : Nat) : Nat :=
  ((List.range 8).foldl (fun p _ => crc8Step p) (crc, b)).1

/-- The OneWire library CRC8 primitive over a byte list, accumulator
starting at 0 (external collaborator OneWire::crc8, Dallas CRC8). -/
def OneWire.crc8 (bytes : List Nat) : Nat := bytes.foldl crc8Byte 0

/-- One row of the supported-chip table model_type (DallasEPROM.h
lines 68-73): family code id, display name, page count, EPROM flag. -/
structure ModelType where
  id : Nat
  name : String
  pages : Int
  isEPROM : Bool
  deriving Repr, DecidableEq

/-- The table _chip_model_list (DallasEPROM.cpp lines 18-27).  The C array
ends with an all-zero sentinel row that terminates every linear scan; the
Lean list simply omits the sentinel and scans end at the end of the list. -/
def chipModelList : List ModelType :=
  [ ⟨0x09, "DS2502", 4, true⟩,
    ⟨0x0B, "DS2505", 64, true⟩,
    ⟨0x14, "DS2430", 1, false⟩,
    ⟨0x2D, "DS2431", 4, false⟩,
    ⟨0x23, "DS2433", 16, false⟩ ]

/-- Row of _chip_model_list at a C index.  Indices outside the populated
rows read the all-zero sentinel row; the library only ever stores -1 or a
populated row index in _curModelIndex. -/
def modelAt (i : Int) : ModelType :=
  if h : 0 ≤ i ∧ i.toNat < chipModelList.length then
    chipModelList.get ⟨i.toNat, h.2⟩
  else ⟨0, "", 0, false⟩

/-- Linear first-match scan of the chip table, carrying the running C
index, as in the while loops of setAddress / search / isSupported
(DallasEPROM.cpp lines 49-57, 71-77, 92-98); -1 when no row matches. -/
def findIdx : List ModelType → Int → Nat → Int
  | [], _, _ => -1
  | m :: rest, i, fam => if m.id = fam then i else findIdx rest (i + 1) fam

/-- Index of the first chip-table row whose id equals the family code,
or -1 when unsupported. -/
def findModelIndex (fam : Nat) : Int := findIdx chipModelList 0 fam

/-- The session state of a DallasEPROM instance: the stored 8-byte 1-Wire
address _addr, the programming pin _progPin, and the current model table
index _curModelIndex (DallasEPROM.h lines 184-191; _curModelIndex is a
char holding -1 or a table index, modelled as Int). -/
structure EPROMState where
  addr : List Nat
  progPin : Int
  curModelIndex : Int
  deriving Repr, DecidableEq

/-- Events produced on the bus and the programming pin by one operation:
bus reset, ROM select, byte written, byte read, programming pulse (the
500 us high pulse on the programming pin), delays and depower. -/
inductive Ev where
  | reset : Ev
  | select : List Nat → Ev
  | write : Nat → Ev
  | read : Nat → Ev
  | pulse : Ev
  | delayUs : Nat → Ev
  | delayMs : Nat → Ev
  | depower : Ev
  deriving Repr, DecidableEq

/-- The external bus environment of one operation: the presence bit the
bus reset reports, the ROM codes a full bus search enumerates in order,
and the stream of bytes successive read calls return. -/
structure Env where
  resetOk : Bool
  devices : List (List Nat)
  reads : List Nat
  deriving Repr, DecidableEq

/-- One bus read: next byte of the stream (a drained stream reads as 0)
and the remaining stream. -/
def rd (reads : List Nat) : Nat × List Nat := (reads.headD 0, reads.tail)

/-- n successive bus reads. -/
def readN : Nat → List Nat → List Nat × List Nat
  | 0, rs => ([], rs)
  | n + 1, rs =>
    let b := rd rs
    let t := readN n b.2
    (b.1 :: t.1, t.2)

/-- The one-argument constructor DallasEPROM(OneWire*) (DallasEPROM.cpp
lines 29-32): it assigns _wire and _progPin = -1 and nothing else, so
_addr and _curModelIndex keep whatever indeterminate values the members
had; the indeterminate pre-state is the explicit argument. -/
def construct1 (indet : EPROMState) : EPROMState :=
  { indet with progPin := -1 }

/-- The two-argument constructor DallasEPROM(OneWire*, int)
(DallasEPROM.cpp lines 34-39): assigns _wire and _progPin only;
_curModelIndex again stays indeterminate. -/
def construct2 (indet : EPROMState) (progPin : Int) : EPROMState :=
  { indet with progPin := progPin }

/-- validAddress (DallasEPROM.cpp lines 45-47): CRC8 over the first 7
bytes must equal byte 7. -/
def validAddress (deviceAddress : List Nat) : Bool :=
  OneWire.crc8 (deviceAddress.take 7) = deviceAddress.getD 7 0

/-- isSupported (DallasEPROM.cpp lines 49-57): linear scan of the chip
table for the family code (byte 0). -/
def isSupported (deviceAddress : List Nat) : Bool :=
  0 ≤ findModelIndex (deviceAddress.headD 0)

/-- The inner loop of search (DallasEPROM.cpp lines 69-78): each bus
search result is copied into _addr, then the chip table is scanned; the
first supported family code ends the search with that model resolved. -/
def searchLoop (st : EPROMState) : List (List Nat) → EPROMState × Bool
  | [] => (st, false)
  | d :: ds =>
    let st1 := { st with addr := d }
    let i := findModelIndex (d.headD 0)
    if 0 ≤ i then ({ st1 with curModelIndex := i }, true)
    else searchLoop st1 ds

/-- search (DallasEPROM.cpp lines 63-80): clear the resolved model, fail
if the bus reset reports no presence, otherwise run the search loop over
the devices the bus enumerates. -/
def search (st : EPROMState) (env : Env) : EPROMState × Bool :=
  let st1 := { st with curModelIndex := -1 }
  if !env.resetOk then (st1, false)
  else searchLoop st1 env.devices

/-- getAddress (DallasEPROM.cpp lines 82-84). -/
def getAddress (st : EPROMState) : List Nat := st.addr

/-- setAddress (DallasEPROM.cpp lines 86-99): _curModelIndex := -1, copy
8 bytes into _addr, then scan the chip table for the new family code.
The net effect of the two assignments to _curModelIndex is the
first-match index, -1 when no row matches. -/
def setAddress (st : EPROMState) (pAddress : List Nat) : EPROMState :=
  { st with
    addr := pAddress.take 8,
    curModelIndex := findModelIndex ((pAddress.take 8).headD 0) }

/-- getDeviceName (DallasEPROM.cpp lines 101-106): the resolved row name,
or NULL (modelled none) when unresolved. -/
def getDeviceName (st : EPROMState) : Option String :=
  if 0 ≤ st.curModelIndex then some (modelAt st.curModelIndex).name
  else none

/-- isConnected (DallasEPROM.cpp lines 108-119): presence after reset and
a full fresh search in which some enumerated ROM code equals _addr
byte-for-byte. -/
def isConnected (st : EPROMState) (env : Env) : Bool :=
  env.resetOk && env.devices.any (fun d => d == st.addr)

/-- isPageValid (DallasEPROM.cpp lines 379-383): a model is resolved and
page is less than its page count.  Note the source has no lower bound on
page. -/
def isPageValid (st : EPROMState) (page : Int) : Bool :=
  0 ≤ st.curModelIndex && page < (modelAt st.curModelIndex).pages

/-- isEPROMDevice (DallasEPROM.cpp lines 385-389). -/
def isEPROMDevice (st : EPROMState) : Bool :=
  0 ≤ st.curModelIndex && (modelAt st.curModelIndex).isEPROM

/-- The trace of the conditional programming-pulse block followed by the
unconditional 500 us settle delay (DallasEPROM.cpp lines 206-211,
227-232, 263-268). -/
def pulseTrace (st : EPROMState) : List Ev :=
  (if 0 ≤ st.progPin then [Ev.pulse] else []) ++ [Ev.delayUs 500]

/-- The byte (byte)(1 << page) used as the lock bitmask (DallasEPROM.cpp
line 251): the int shift truncated to 8 bits.  A shift by a negative
count is undefined in C; it is modelled as 0 and never exercised by the
theorems below. -/
def lockMask (page : Int) : Nat :=
  if 0 ≤ page then 2 ^ page.toNat % 256 else 0

/-- The echo-verification loop of scratchWrite (DallasEPROM.cpp lines
354-357): read one byte per data byte and compare; stop at the first
mismatch.  Returns (all bytes matched, the bytes actually read, the
remaining read stream). -/
def checkEcho : List Nat → List Nat → Bool × List Nat × List Nat
  | [], reads => (true, [], reads)
  | d :: ds, reads =>
    let b := rd reads
    if b.1 ≠ d then (false, [b.1], b.2)
    else
      let t := checkEcho ds b.2
      (t.1, b.1 :: t.2.1, t.2.2)

/-- scratchWrite (DallasEPROM.cpp lines 328-377): stage the chunk in the
scratchpad, then either the DS2430 commit {WRITESTATUS, VERIFYRESUME},
or read 3 auth bytes, verify the scratchpad echo of every data byte
(else BAD_INTEGRITY), commit {WRITESTATUS, auth0, auth1, auth2}, wait
10 ms, depower, and require the trailing success byte 0xAA (else
COPY_FAILURE; both the auth phase and the success byte are skipped for
DS2430).  Result: status, bus trace, remaining read stream. -/
def scratchWrite (st : EPROMState) (chunk : List Nat) (address : Nat)
    (reads : List Nat) : Int × List Ev × List Nat :=
  let t1 : List Ev :=
    [Ev.reset, Ev.select st.addr, Ev.write WRITEMEMORY,
     Ev.write (address % 256), Ev.write (address / 256 % 256)] ++
    chunk.map Ev.write
  if (modelAt st.curModelIndex).name = "DS2430" then
    (0, t1 ++ [Ev.reset, Ev.select st.addr, Ev.write WRITESTATUS,
      Ev.write VERIFYRESUME, Ev.delayMs 10, Ev.depower], reads)
  else
    let ar := readN 3 reads
    let auth := ar.1
    let t2 : List Ev :=
      [Ev.reset, Ev.select st.addr, Ev.write READSTATUS] ++ auth.map Ev.read
    let e := checkEcho chunk ar.2
    if e.1 = false then
      (BAD_INTEGRITY, t1 ++ t2 ++ e.2.1.map Ev.read, e.2.2)
    else
      let t3 : List Ev :=
        [Ev.reset, Ev.select st.addr, Ev.write WRITESTATUS,
         Ev.write (auth.getD 0 0), Ev.write (auth.getD 1 0),
         Ev.write (auth.getD 2 0), Ev.delayMs 10, Ev.depower]
      let s := rd e.2.2
      if s.1 ≠ 0xAA then
        (COPY_FAILURE, t1 ++ t2 ++ e.2.1.map Ev.read ++ t3 ++ [Ev.read s.1], s.2)
      else
        (0, t1 ++ t2 ++ e.2.1.map Ev.read ++ t3 ++ [Ev.read s.1], s.2)

/-- The EEPROM loop of writePage (DallasEPROM.cpp lines 183-187):
for (i = 0; i < 32; i += 8) commit 8 bytes at data+i to address+i,
returning the first non-zero status. -/
def eepromPageLoop (st : EPROMState) (data : List Nat) (address : Nat)
    (i : Nat) (reads : List Nat) : Int × List Ev :=
  if h : i < 32 then
    let r := scratchWrite st ((data.drop i).take 8) (address + i) reads
    if r.1 ≠ 0 then (r.1, r.2.1)
    else
      let rest := eepromPageLoop st data address (i + 8) r.2.2
      (rest.1, r.2.1 ++ rest.2)
  else (0, [])
termination_by 32 - i
decreasing_by omega

/-- The EPROM per-byte loop of writePage (DallasEPROM.cpp lines 218-236):
write the byte, read (and discard) the acknowledgement byte, pulse and
settle, read back and require equality with the written byte, else
COPY_FAILURE. -/
def epromByteLoop (st : EPROMState) (data : List Nat) (i : Nat)
    (reads : List Nat) : Int × List Ev :=
  if h : i < 32 then
    let b := data.getD i 0
    let a := rd reads
    let v := rd a.2
    let t := [Ev.write b, Ev.read a.1] ++ pulseTrace st ++ [Ev.read v.1]
    if b ≠ v.1 then (COPY_FAILURE, t)
    else
      let rest := epromByteLoop st data (i + 1) v.2
      (rest.1, t ++ rest.2)
  else (0, [])
termination_by 32 - i
decreasing_by omega

/-- The shared memory-read phase of readPage (DallasEPROM.cpp lines
147-167): send {READMEMORY, addrLow, addrHigh}; on EPROM devices require
the echoed CRC8 of the command (else CRC_MISMATCH); stream 32 bytes.
Result: status, bus trace, data read. -/
def readMem (st : EPROMState) (address : Nat) (reads : List Nat) :
    Int × List Ev × List Nat :=
  let cmd : List Nat := [READMEMORY, address % 256, address / 256 % 256]
  let t : List Ev := [Ev.reset, Ev.select st.addr] ++ cmd.map Ev.write
  if isEPROMDevice st then
    let c := rd reads
    if OneWire.crc8 cmd ≠ c.1 then (CRC_MISMATCH, t ++ [Ev.read c.1], [])
    else
      let dat := readN 32 c.2
      (0, t ++ [Ev.read c.1] ++ dat.1.map Ev.read, dat.1)
  else
    let dat := readN 32 reads
    (0, t ++ dat.1.map Ev.read, dat.1)

/-- readPage (DallasEPROM.cpp lines 121-168): validate the page, check
connectivity, then on EPROM devices run the redirect phase
{READSTATUS, page+1, 0x00} with CRC check; a redirect byte other than
0xFF replaces the whole memory address page*32; finally the shared
memory-read phase.  Result: status, bus trace, data read. -/
def readPage (st : EPROMState) (env : Env) (page : Int) :
    Int × List Ev × List Nat :=
  let address := u32 (page * 32)
  if !isPageValid st page then (INVALID_PAGE, [], [])
  else if !isConnected st env then (DEVICE_DISCONNECTED, [], [])
  else if isEPROMDevice st then
    let cmd1 : List Nat := [READSTATUS, u8 (page + 1), 0x00]
    let t1 : List Ev := [Ev.reset, Ev.select st.addr] ++ cmd1.map Ev.write
    let c := rd env.reads
    if OneWire.crc8 cmd1 ≠ c.1 then (CRC_MISMATCH, t1 ++ [Ev.read c.1], [])
    else
      let na := rd c.2
      let address1 := if na.1 ≠ 0xFF then na.1 else address
      let m := readMem st address1 na.2
      (m.1, t1 ++ [Ev.read c.1, Ev.read na.1] ++ m.2.1, m.2.2)
  else
    readMem st address env.reads

/-- writePage (DallasEPROM.cpp lines 170-239): validate the page, check
connectivity; EEPROM devices run the four-chunk scratchpad loop; EPROM
devices send {WRITEMEMORY, addrLow, addrHigh, data[0]} with CRC check
(else CRC_MISMATCH), pulse, verify the first readback byte (else
COPY_FAILURE), then run the per-byte loop from byte 1.
Result: status, bus trace. -/
def writePage (st : EPROMState) (env : Env) (data : List Nat)
    (page : Int) : Int × List Ev :=
  let address := u32 (page * 32)
  if !isPageValid st page then (INVALID_PAGE, [])
  else if !isConnected st env then (DEVICE_DISCONNECTED, [])
  else if !isEPROMDevice st then
    eepromPageLoop st data address 0 env.reads
  else
    let cmd : List Nat :=
      [WRITEMEMORY, address % 256, address / 256 % 256, data.getD 0 0]
    let t1 : List Ev := [Ev.reset, Ev.select st.addr] ++ cmd.map Ev.write
    let c := rd env.reads
    if OneWire.crc8 cmd ≠ c.1 then (CRC_MISMATCH, t1 ++ [Ev.read c.1])
    else
      let v := rd c.2
      let t2 := t1 ++ [Ev.read c.1] ++ pulseTrace st ++ [Ev.read v.1]
      if data.getD 0 0 ≠ v.1 then (COPY_FAILURE, t2)
      else
        let rest := epromByteLoop st data 1 v.2
        (rest.1, t2 ++ rest.2)

/-- lockPage (DallasEPROM.cpp lines 241-280): validate the page, check
connectivity, reset and select; EPROM devices send
{WRITESTATUS, 0x00, 0x00, (byte)(1 << page)} with CRC check (else
CRC_MISMATCH) and pulse; EEPROM devices commit the sentinel byte 0x55 to
offset pages*32 + page through scratchWrite, whose status the source
discards before returning 0.  Result: status, bus trace. -/
def lockPage (st : EPROMState) (env : Env) (page : Int) : Int × List Ev :=
  if !isPageValid st page then (INVALID_PAGE, [])
  else if !isConnected st env then (DEVICE_DISCONNECTED, [])
  else
    let t0 : List Ev := [Ev.reset, Ev.select st.addr]
    if isEPROMDevice st then
      let cmd : List Nat := [WRITESTATUS, 0x00, 0x00, lockMask page]
      let t1 := t0 ++ cmd.map Ev.write
      let c := rd env.reads
      if OneWire.crc8 cmd ≠ c.1 then (CRC_MISMATCH, t1 ++ [Ev.read c.1])
      else (0, t1 ++ [Ev.read c.1] ++ pulseTrace st)
    else
      let start := u32 ((modelAt st.curModelIndex).pages * 32 + page)
      let r := scratchWrite st [0x55] start env.reads
      (0, t0 ++ r.2.1)

/-- The value of the expression returned by isPageLocked (DallasEPROM.cpp
lines 282-322) before the C++ conversion to the declared bool return
type: validate the page, check connectivity, reset and select; EPROM
devices send {READSTATUS, 0x00, 0x00} with CRC check (else
CRC_MISMATCH), read the status byte, reset, and return bit page of it;
EEPROM devices read one byte at offset pages*32 + page and return
true (1) iff it is 0x55.  Result: returned int value, bus trace. -/
def isPageLockedInt (st : EPROMState) (env : Env) (page : Int) :
    Int × List Ev :=
  if !isPageValid st page then (INVALID_PAGE, [])
  else if !isConnected st env then (DEVICE_DISCONNECTED, [])
  else
    let t0 : List Ev := [Ev.reset, Ev.select st.addr]
    if isEPROMDevice st then
      let cmd : List Nat := [READSTATUS, 0x00, 0x00]
      let t1 := t0 ++ cmd.map Ev.write
      let c := rd env.reads
      if OneWire.crc8 cmd ≠ c.1 then (CRC_MISMATCH, t1 ++ [Ev.read c.1])
      else
        let s := rd c.2
        (Int.ofNat (1 &&& (s.1 >>> page.toNat)),
         t1 ++ [Ev.read c.1, Ev.read s.1, Ev.reset])
    else
      let start := u32 ((modelAt st.curModelIndex).pages * 32 + page)
      let t1 := t0 ++ [Ev.write READMEMORY, Ev.write (start % 256),
        Ev.write (start / 256 % 256)]
      let b := rd env.reads
      if b.1 = 0x55 then (1, t1 ++ [Ev.read b.1])
      else (0, t1 ++ [Ev.read b.1])

/-- The bool the caller of isPageLocked actually receives: the C++
conversion of the returned int value to the declared bool return type,
which maps every non-zero value (negative status codes included) to
true. -/
def isPageLocked (st : EPROMState) (env : Env) (page : Int) : Bool :=
  (isPageLockedInt st env page).1 ≠ 0

/-- Detector for a scratchpad commit command addressed to device a in a
bus trace: a bus reset immediately followed by selecting a and writing
WRITESTATUS as the command byte (the shape of the commit phase of
scratchWrite and of the EPROM lock command). -/
def hasCommitSeq (a : List Nat) : List Ev → Bool
  | [] => false
  | e :: t =>
    (match e, t with
     | Ev.reset, Ev.select b :: Ev.write w :: _ => b == a && w == WRITESTATUS
     | _, _ => false) || hasCommitSeq a t

/-- An 8-byte ROM address with the DS2502 family code 0x09. -/
def addr2502 : List Nat := [0x09, 0, 0, 0, 0, 0, 0, 0]

/-- A session resolved to the DS2502 EPROM (table row 0, 4 pages). -/
def st2502 : EPROMState := ⟨addr2502, -1, 0⟩

/-- An environment where the DS2502 session is connected and every bus
read returns 0 (a drained stream). -/
def envC : Env := ⟨true, [addr2502], []⟩

/-- An 8-byte ROM address with the DS2505 family code 0x0B. -/
def addr2505 : List Nat := [0x0B, 0, 0, 0, 0, 0, 0, 0]

/-- A session resolved to the DS2505 EPROM (table row 1, 64 pages). -/
def st2505 : EPROMState := ⟨addr2505, -1, 1⟩

/-- An environment where the DS2505 session is connected. -/
def env2505 : Env := ⟨true, [addr2505], []⟩

/-- An 8-byte ROM address with the DS2431 family code 0x2D. -/
def addr2431 : List Nat := [0x2D, 0, 0, 0, 0, 0, 0, 0]

/-- A session resolved to the DS2431 EEPROM (table row 3, 4 pages). -/
def st2431 : EPROMState := ⟨addr2431, -1, 3⟩

/-- An environment where the DS2431 session is connected and the bus
returns 0 for the three auth bytes and for the scratchpad echo, so the
echo of the sentinel byte 0x55 mismatches. -/
def env2431 : Env := ⟨true, [addr2431], [0, 0, 0, 0]⟩

/-- An 8-byte ROM address with the DS2433 family code 0x23. -/
def addr2433 : List Nat := [0x23, 0, 0, 0, 0, 0, 0, 0]

/-- A session resolved to the DS2433 EEPROM (table row 4, 16 pages). -/
def st2433 : EPROMState := ⟨addr2433, -1, 4⟩

/-- An environment where the DS2433 session is connected and every bus
read returns 0. -/
def env2433 : Env := ⟨true, [addr2433], []⟩

/-- An indeterminate member state a freshly constructed instance might
carry: the uninitialized _curModelIndex happens to hold 2 (the DS2430
table row). -/
def indetState : EPROMState := ⟨[0, 0, 0, 0, 0, 0, 0, 0], 0, 2⟩

/-- A session used for the search witness; the bus enumerates one device
with the unsupported family code 0xFF. -/
def stW : EPROMState := ⟨[1, 1, 1, 1, 1, 1, 1, 1], -1, 0⟩

/-- The environment of the search witness. -/
def envW : Env := ⟨true, [[0xFF, 1, 2, 3, 4, 5, 6, 7]], []⟩

/-!  Theorems. -/

/-- C1: the claim fails on the code.  isPageValid has no lower bound on
the page index, so with a resolved DS2502 model the negative page -1
passes validation, and readPage, writePage, lockPage and isPageLocked
all proceed to the bus instead of returning INVALID_PAGE (here the
drained read stream makes each of them fail the CRC check, so each
returns CRC_MISMATCH, not INVALID_PAGE). -/
theorem c1_negative_page_passes_validation :
    isPageValid st2502 (-1) = true ∧
    (readPage st2502 envC (-1)).1 = CRC_MISMATCH ∧
    (writePage st2502 envC (List.replicate 32 0) (-1)).1 = CRC_MISMATCH ∧
    (lockPage st2502 envC (-1)).1 = CRC_MISMATCH ∧
    (isPageLockedInt st2502 envC (-1)).1 = CRC_MISMATCH := by
  decide

/-- C2: the claim fails on the code.  isPageLocked is declared with a
bool return type, so although the invalid-page preamble computes the
status INVALID_PAGE, the C++ int-to-bool conversion turns that value
into true, the same value a locked page produces: on the DS2502 session
the out-of-range page 4 yields true, indistinguishable from locked. -/
theorem c2_status_collapses_to_locked :
    (isPageLockedInt st2502 envC 4).1 = INVALID_PAGE ∧
    isPageLocked st2502 envC 4 = true := by
  decide

/-- C3 counterexample: on the 64-page DS2505, lockPage for page 8 writes
the bitmask byte (byte)(1 << 8) = 0, whose bit 8 is not set (no bit is),
refuting the claim that the bitmask has the single bit numbered page set
for pages 8 through 63. -/
theorem c3_page8_mask_has_no_bit_set :
    (lockPage st2505 env2505 8).2.take 6 =
      [Ev.reset, Ev.select addr2505, Ev.write WRITESTATUS,
       Ev.write 0, Ev.write 0, Ev.write 0] ∧
    Nat.testBit (lockMask 8) 8 = false := by
  decide

/-- C4: the claim fails on the code.  In the EEPROM branch of lockPage the
status of the scratchpad commit of the sentinel byte 0x55 is discarded:
on the DS2431 session this environment makes the commit fail its
scratchpad echo check with BAD_INTEGRITY, yet lockPage returns 0, and
its bus trace is exactly the preamble followed by the failed commit. -/
theorem c4_lock_discards_scratch_failure :
    (scratchWrite st2431 [0x55] 128 env2431.reads).1 = BAD_INTEGRITY ∧
    (lockPage st2431 env2431 0).1 = 0 ∧
    (lockPage st2431 env2431 0).2 =
      [Ev.reset, Ev.select addr2431] ++
        (scratchWrite st2431 [0x55] 128 env2431.reads).2.1 := by
  decide

/-- C9: the claim fails on the code.  Neither constructor assigns
_curModelIndex, so its value after construction is the indeterminate
value the raw member memory held, not the no-device value -1: when that
indeterminate value is 2, getDeviceName reports the DS2430 name and page
0 passes validation, so the session does not behave as unresolved. -/
theorem c9_constructor_index_indeterminate :
    getDeviceName (construct1 indetState) = some "DS2430" ∧
    isPageValid (construct1 indetState) 0 = true ∧
    (readPage (construct1 indetState) ⟨true, [[0, 0, 0, 0, 0, 0, 0, 0]], []⟩ 0).1
      ≠ INVALID_PAGE := by
  decide

/-- C3 (amended): for every resolved EPROM session, connected device and
valid nonnegative page, lockPage issues the 4-byte command
{WRITESTATUS, 0x00, 0x00, b} where b is (1 << page) truncated to 8 bits,
that is 2 ^ page mod 256: for pages 0 through 7 this byte is exactly
2 ^ page (the byte with only bit page set), but for every page from 8 on
(pages 8 through 63 of the DS2505 included) the truncation clears every
bit and the byte written is 0. -/
theorem c3_lock_bitmask_truncated (st : EPROMState) (env : Env) (page : Int)
    (hE : isEPROMDevice st = true) (h0 : 0 ≤ page)
    (hv : isPageValid st page = true) (hc : isConnected st env = true) :
    (lockPage st env page).2.take 6 =
      [Ev.reset, Ev.select st.addr, Ev.write WRITESTATUS, Ev.write 0,
       Ev.write 0, Ev.write (2 ^ page.toNat % 256)] ∧
    2 ^ page.toNat % 256 = (if page < 8 then 2 ^ page.toNat else 0) := by
  constructor
  · have hm : lockMask page = 2 ^ page.toNat % 256 := by
      simp [lockMask, h0]
    unfold lockPage
    rw [hv, hc]
    simp only [Bool.not_true, Bool.false_eq_true, if_false, hE, if_true, hm]
    split
    · rfl
    · rfl
  · by_cases h8 : page < 8
    · have hlt : page.toNat < 8 := by omega
      have : (2 : Nat) ^ page.toNat < 256 := by
        calc (2 : Nat) ^ page.toNat < 2 ^ 8 :=
              Nat.pow_lt_pow_right (by norm_num) hlt
          _ = 256 := by norm_num
      simp [h8, Nat.mod_eq_of_lt this]
    · have hge : 8 ≤ page.toNat := by omega
      have hdvd : (256 : Nat) ∣ 2 ^ page.toNat := by
        have := Nat.pow_dvd_pow 2 hge
        simpa using this
      simp [h8, Nat.eq_zero_of_dvd_of_lt, Nat.mod_eq_zero_of_dvd hdvd]

/-- C3 witness: the amended statement applied to the DS2505 session at
the concrete page 3. -/
theorem c3_lock_bitmask_truncated_witness :
    (lockPage st2505 env2505 3).2.take 6 =
      [Ev.reset, Ev.select st2505.addr, Ev.write WRITESTATUS, Ev.write 0,
       Ev.write 0, Ev.write (2 ^ (3 : Int).toNat % 256)] ∧
    2 ^ (3 : Int).toNat % 256 = (if (3 : Int) < 8 then 2 ^ (3 : Int).toNat else 0) :=
  c3_lock_bitmask_truncated st2505 env2505 3 (by decide) (by decide)
    (by decide) (by decide)

/-- Helper: the linear chip-table scan yields a nonnegative index iff the
family code occurs among the scanned ids, for any nonnegative starting
index. -/
theorem findIdx_nonneg_iff_mem (fam : Nat) :
    ∀ (l : List ModelType) (i : Int), 0 ≤ i →
      (0 ≤ findIdx l i fam ↔ fam ∈ l.map (fun m => m.id)) := by
  intro l
  induction l with
  | nil => intro i hi; simp [findIdx]
  | cons m rest ih =>
    intro i hi
    by_cases hm : m.id = fam
    · simp [findIdx, hm, hi]
    · have hmem : fam ∈ (m :: rest).map (fun m => m.id) ↔
          fam ∈ rest.map (fun m => m.id) := by
        simp only [List.map_cons, List.mem_cons]
        constructor
        · rintro (h | h)
          · exact absurd h.symm hm
          · exact h
        · exact Or.inr
      rw [hmem]
      simpa [findIdx, hm] using ih (i + 1) (by omega)

/-- Helper: when the family code occurs in none of the scanned ids, the
linear chip-table scan yields -1. -/
theorem findIdx_eq_neg_one_of_not_mem (fam : Nat) :
    ∀ (l : List ModelType) (i : Int),
      fam ∉ l.map (fun m => m.id) → findIdx l i fam = -1 := by
  intro l
  induction l with
  | nil => intro i _; simp [findIdx]
  | cons m rest ih =>
    intro i h
    simp only [List.map_cons, List.mem_cons] at h
    push_neg at h
    have hm : m.id ≠ fam := fun he => h.1 he.symm
    simpa [findIdx, hm] using ih (i + 1) (by
      intro hc
      exact h.2 hc)

/-- C8: for every session state and 8-byte input address, setAddress
stores the input unconditionally, the resulting model index is exactly
the first-match table index of the family code (byte 0) and is therefore
independent of any previously resolved model, the session is resolved
(index nonnegative) iff the family code occurs in the registry, and when
it does not the index is the explicit no-device value -1. -/
theorem c8_setAddress_resolution (st : EPROMState) (p : List Nat)
    (hp : p.length = 8) :
    (setAddress st p).addr = p ∧
    (setAddress st p).curModelIndex = findModelIndex (p.headD 0) ∧
    (0 ≤ findModelIndex (p.headD 0) ↔
      p.headD 0 ∈ chipModelList.map (fun m => m.id)) ∧
    (findModelIndex (p.headD 0) = -1 ↔
      p.headD 0 ∉ chipModelList.map (fun m => m.id)) := by
  have ht : p.take 8 = p := by
    rw [← hp]; exact List.take_length p
  refine ⟨by simp [setAddress, ht], by simp [setAddress, ht], ?_, ?_⟩
  · exact findIdx_nonneg_iff_mem (p.headD 0) chipModelList 0 (by norm_num)
  · constructor
    · intro h hmem
      have := (findIdx_nonneg_iff_mem (p.headD 0) chipModelList 0
        (by norm_num)).mpr hmem
      rw [findModelIndex] at h
      omega
    · intro h
      exact findIdx_eq_neg_one_of_not_mem (p.headD 0) chipModelList 0 h

/-- C8 witness: setAddress applied to a concrete DS2433 address. -/
theorem c8_setAddress_resolution_witness :
    (setAddress stW [0x23, 1, 2, 3, 4, 5, 6, 7]).addr =
      [0x23, 1, 2, 3, 4, 5, 6, 7] ∧
    (setAddress stW [0x23, 1, 2, 3, 4, 5, 6, 7]).curModelIndex =
      findModelIndex (([0x23, 1, 2, 3, 4, 5, 6, 7] : List Nat).headD 0) ∧
    (0 ≤ findModelIndex (([0x23, 1, 2, 3, 4, 5, 6, 7] : List Nat).headD 0) ↔
      ([0x23, 1, 2, 3, 4, 5, 6, 7] : List Nat).headD 0 ∈
        chipModelList.map (fun m => m.id)) ∧
    (findModelIndex (([0x23, 1, 2, 3, 4, 5, 6, 7] : List Nat).headD 0) = -1 ↔
      ([0x23, 1, 2, 3, 4, 5, 6, 7] : List Nat).headD 0 ∉
        chipModelList.map (fun m => m.id)) :=
  c8_setAddress_resolution stW [0x23, 1, 2, 3, 4, 5, 6, 7] (by decide)

/-- Helper: when the search loop exhausts the enumerated devices without
a match it leaves the model index as it found it and has overwritten the
stored address with each enumerated device in turn, ending at the last
one (or leaving the address alone when nothing was enumerated). -/
theorem searchLoop_false (ds : List (List Nat)) : ∀ st : EPROMState,
    (searchLoop st ds).2 = false →
    (searchLoop st ds).1.curModelIndex = st.curModelIndex ∧
    (searchLoop st ds).1.addr = ds.getLastD st.addr := by
  induction ds with
  | nil => intro st _; simp [searchLoop]
  | cons d ds ih =>
    intro st h
    simp only [searchLoop] at h ⊢
    by_cases hf : 0 ≤ findModelIndex (d.headD 0)
    · rw [if_pos hf] at h
      simp at h
    · rw [if_neg hf] at h ⊢
      have := ih { st with addr := d } h
      rw [List.getLastD_cons]
      exact this

/-- C10: whenever search returns false the resolved-model index is -1,
and when the bus reset succeeded the stored 8-byte address has been
overwritten with each device the bus search enumerated (supported or
not), so it ends as the last enumerated device, the previously stored
address surviving only when nothing was enumerated; on a failed reset
the address is untouched. -/
theorem c10_search_false_overwrites_addr (st : EPROMState) (env : Env)
    (h : (search st env).2 = false) :
    (search st env).1.curModelIndex = -1 ∧
    (search st env).1.addr =
      (if env.resetOk then env.devices.getLastD st.addr else st.addr) := by
  unfold search at h ⊢
  by_cases hr : env.resetOk
  · simp only [hr, Bool.not_true, Bool.false_eq_true, if_false, if_true] at h ⊢
    have := searchLoop_false env.devices _ h
    simpa using this
  · simp only [Bool.not_eq_true] at hr
    simp [hr]

/-- C10 witness: search over a bus enumerating one unsupported device. -/
theorem c10_search_false_overwrites_addr_witness :
    (search stW envW).1.curModelIndex = -1 ∧
    (search stW envW).1.addr =
      (if envW.resetOk then envW.devices.getLastD stW.addr else stW.addr) :=
  c10_search_false_overwrites_addr stW envW (by decide)

/-- C5: for every resolved EPROM session, connected device and valid
page, when the status-read phase of readPage passes its CRC check and
returns the redirect byte na, the subsequent memory-read command is
{READMEMORY, lo, hi} of the address na itself whenever na is not the
sentinel 0xFF (the redirect byte is used as the full address, not
scaled by 32), and of the address page*32 when na is 0xFF. -/
theorem c5_redirect_overrides_address (st : EPROMState) (env : Env)
    (page : Int) (c na : Nat) (rest : List Nat)
    (hE : isEPROMDevice st = true)
    (hv : isPageValid st page = true)
    (hc : isConnected st env = true)
    (hr : env.reads = c :: na :: rest)
    (hcrc : c = OneWire.crc8 [READSTATUS, u8 (page + 1), 0x00]) :
    (readPage st env page).2.1.take 12 =
      [Ev.reset, Ev.select st.addr, Ev.write READSTATUS,
       Ev.write (u8 (page + 1)), Ev.write 0x00, Ev.read c, Ev.read na,
       Ev.reset, Ev.select st.addr, Ev.write READMEMORY,
       Ev.write ((if na ≠ 0xFF then na else u32 (page * 32)) % 256),
       Ev.write ((if na ≠ 0xFF then na else u32 (page * 32)) / 256 % 256)] := by
  subst hcrc
  by_cases hna : na = 0xFF
  · simp [readPage, readMem, hv, hc, hE, hr, rd, hna]
    split <;> simp [List.take_succ_cons]
  · simp [readPage, readMem, hv, hc, hE, hr, rd, hna]
    split <;> simp [List.take_succ_cons]

/-- C5 witness: the DS2502 session reading page 0 with a passing CRC and
the redirect byte 0x07; the memory read goes to address 0x07. -/
theorem c5_redirect_overrides_address_witness :
    (readPage st2502
        ⟨true, [addr2502], [OneWire.crc8 [READSTATUS, u8 (0 + 1), 0x00], 0x07]⟩
        0).2.1.take 12 =
      [Ev.reset, Ev.select st2502.addr, Ev.write READSTATUS,
       Ev.write (u8 (0 + 1)), Ev.write 0x00,
       Ev.read (OneWire.crc8 [READSTATUS, u8 (0 + 1), 0x00]), Ev.read 0x07,
       Ev.reset, Ev.select st2502.addr, Ev.write READMEMORY,
       Ev.write ((if (0x07 : Nat) ≠ 0xFF then 0x07 else u32 (0 * 32)) % 256),
       Ev.write ((if (0x07 : Nat) ≠ 0xFF then 0x07 else u32 (0 * 32)) / 256 % 256)] :=
  c5_redirect_overrides_address st2502
    ⟨true, [addr2502], [OneWire.crc8 [READSTATUS, u8 (0 + 1), 0x00], 0x07]⟩
    0 (OneWire.crc8 [READSTATUS, u8 (0 + 1), 0x00]) 0x07 []
    (by decide) (by decide) (by decide) rfl rfl

/-- Reference behavior for claim C6, written from the spec words rather
than from the source loop: split the 32-byte page into four 8-byte
chunks at offsets 0/8/16/24 of the page base address, commit each chunk
through the scratchpad sub-protocol in this order, short-circuit on the
first non-zero status (no later commit is issued and that status is
returned), and return 0 exactly when all four commits return 0. -/
def writePageSpecC6 (st : EPROMState) (data : List Nat) (a : Nat)
    (reads : List Nat) : Int × List Ev :=
  let r0 := scratchWrite st ((data.drop 0).take 8) (a + 0) reads
  if r0.1 ≠ 0 then (r0.1, r0.2.1) else
  let r1 := scratchWrite st ((data.drop 8).take 8) (a + 8) r0.2.2
  if r1.1 ≠ 0 then (r1.1, r0.2.1 ++ r1.2.1) else
  let r2 := scratchWrite st ((data.drop 16).take 8) (a + 16) r1.2.2
  if r2.1 ≠ 0 then (r2.1, r0.2.1 ++ r1.2.1 ++ r2.2.1) else
  let r3 := scratchWrite st ((data.drop 24).take 8) (a + 24) r2.2.2
  if r3.1 ≠ 0 then (r3.1, r0.2.1 ++ r1.2.1 ++ r2.2.1 ++ r3.2.1)
  else (0, r0.2.1 ++ r1.2.1 ++ r2.2.1 ++ r3.2.1)

/-- C6: for every resolved EEPROM session, connected device and valid
page, writePage of a 32-byte buffer behaves exactly as the four-commit
reference writePageSpecC6: four scratchpad commits of the 8-byte chunks
at device offsets page*32 + 0, 8, 16, 24, in order, short-circuiting on
the first non-zero status, returning 0 iff all four commits return 0. -/
theorem c6_writepage_four_commits (st : EPROMState) (env : Env)
    (data : List Nat) (page : Int)
    (hM : isEPROMDevice st = false) (hv : isPageValid st page = true)
    (hc : isConnected st env = true) :
    writePage st env data page =
      writePageSpecC6 st data (u32 (page * 32)) env.reads := by
  have h1 : writePage st env data page =
      eepromPageLoop st data (u32 (page * 32)) 0 env.reads := by
    simp [writePage, hv, hc, hM]
  rw [h1]
  unfold writePageSpecC6
  rw [eepromPageLoop.eq_def]; norm_num
  rw [eepromPageLoop.eq_def]; norm_num
  rw [eepromPageLoop.eq_def]; norm_num
  rw [eepromPageLoop.eq_def]; norm_num
  rw [eepromPageLoop.eq_def]; norm_num
  split_ifs <;> simp [List.append_assoc]

/-- C6 witness: the DS2433 session writing an all-zero page 0 over a
drained read stream (the first commit fails its 0xAA success check, so
the short-circuit path is exercised). -/
theorem c6_writepage_four_commits_witness :
    writePage st2433 env2433 (List.replicate 32 0) 0 =
      writePageSpecC6 st2433 (List.replicate 32 0) (u32 (0 * 32))
        env2433.reads :=
  c6_writepage_four_commits st2433 env2433 (List.replicate 32 0) 0
    (by decide) (by decide) (by decide)

/-- Helper: scanning a run of write events never matches the commit
detector, which requires a bus reset to start the pattern. -/
theorem hasCommitSeq_writes (a : List Nat) (l : List Nat) (t : List Ev) :
    hasCommitSeq a (l.map Ev.write ++ t) = hasCommitSeq a t := by
  induction l with
  | nil => rfl
  | cons x xs ih => simpa [hasCommitSeq] using ih

/-- Helper: a trace consisting only of read events never matches the
commit detector. -/
theorem hasCommitSeq_reads_only (a : List Nat) (l : List Nat) :
    hasCommitSeq a (l.map Ev.read) = false := by
  induction l with
  | nil => rfl
  | cons x xs ih => simpa [hasCommitSeq] using ih

/-- C7: for every resolved non-DS2430 EEPROM session, whenever the
scratchpad echo verification fails (some device-echoed byte differs from
the corresponding sent data byte, which is exactly checkEcho reporting
false), scratchWrite returns BAD_INTEGRITY and its bus trace contains no
commit command at all: no bus reset followed by selecting the device and
writing WRITESTATUS, so the commit {WRITESTATUS, auth0, auth1, auth2} is
never issued in that call. -/
theorem c7_bad_integrity_no_commit (st : EPROMState) (chunk : List Nat)
    (address : Nat) (a0 a1 a2 : Nat) (rest : List Nat)
    (hR : 0 ≤ st.curModelIndex)
    (hM : isEPROMDevice st = false)
    (hname : (modelAt st.curModelIndex).name ≠ "DS2430")
    (hecho : (checkEcho chunk rest).1 = false) :
    (scratchWrite st chunk address (a0 :: a1 :: a2 :: rest)).1 =
      BAD_INTEGRITY ∧
    hasCommitSeq st.addr
      (scratchWrite st chunk address (a0 :: a1 :: a2 :: rest)).2.1 = false := by
  constructor
  · simp [scratchWrite, hname, hecho, readN, rd]
  · simp [scratchWrite, hname, hecho, readN, rd, hasCommitSeq,
      hasCommitSeq_writes, hasCommitSeq_reads_only]
    decide

/-- C7 witness: the DS2431 session staging the single byte 1 whose echo
comes back as 0. -/
theorem c7_bad_integrity_no_commit_witness :
    (scratchWrite st2431 [1] 128 (0 :: 0 :: 0 :: [0])).1 = BAD_INTEGRITY ∧
    hasCommitSeq st2431.addr
      (scratchWrite st2431 [1] 128 (0 :: 0 :: 0 :: [0])).2.1 = false :=
  c7_bad_integrity_no_commit st2431 [1] 128 0 0 0 [0]
    (by decide) (by decide) (by decide) (by decide)
